import Mathlib

/-!
Verification of the Market-Lens section-orchestration engine.

The definitions below are a shallow embedding of the orchestration core:
  * `sectionAgentMapping` / `agentsNeeded` — the section → required-agents
    table shared by `SequentialGenerator.__init__` and
    `SupervisorAgent.__init__`.
  * `retryGoF` / `invokeWithRetry` — the retry/backoff loop inside
    `ROIAgent.invoke` (base delay 5, 2 attempts) and `KPIAgent.invoke`
    (base delay 20, 3 attempts).  External agent-executor calls are modelled
    by an oracle `Nat → Except String String` giving the outcome of each
    attempt; `time.sleep` is modelled by recording the requested wait.
  * `runAgents` / `buildCompState` / `analyzeSection` — the sequential
    scheduler `SequentialGenerator.analyze_section`.
  * `compilerCompile` — `CompilerAgent.compile`; its underlying
    `self.llm.invoke(prompt.format(...))` call is an oracle
    `String → Except String String` applied to the formatted prompt.
  * `runAgentNode` / `parallelWorkersRun` — the parallel LangGraph workflow
    of `SupervisorAgent._create_workflow`.
  * `reportGo` / `generateReport` — `SequentialGenerator.generate_report`.
  * `getAgent` — the lazy agent registry `SequentialGenerator._get_agent`.
  * `constructDataManager` / `getDataManager` — the `DataManager` singleton.
-/

namespace MarketLens

/-- The static section → required-agents table, copied from
`SequentialGenerator.__init__` (generator.py lines 78-86); the identical
table appears in `SupervisorAgent.__init__` (report_generator.py 59-67). -/
def sectionAgentMapping : List (String × List String) :=
  [("executive_summary", ["exploration_agent"]),
   ("business_context", ["exploration_agent", "market_agent", "sql_agent"]),
   ("marketing_performance", ["exploration_agent", "sql_agent"]),
   ("performance_drivers", ["kpi_agent", "sql_agent"]),
   ("marketing_roi", ["roi_agent", "sql_agent"]),
   ("budget_allocation", ["budget_agent", "sql_agent"]),
   ("implementation", ["market_agent"])]

/-- `self.section_agent_mapping.get(section, [])` (generator.py line 147). -/
def agentsNeeded (sec : String) : List String :=
  (sectionAgentMapping.lookup sec).getD []

/-! ## Retry controller (ROIAgent.invoke / KPIAgent.invoke) -/

/-- Outcome of the retry loop: the agent-executor call either returned an
output text or the loop exhausted its attempts with a last error. -/
inductive RetryResult
  | success (text : String)
  | failure (lastError : String)
deriving DecidableEq

/-- The `while attempt < max_attempts` retry loop shared by
`ROIAgent.invoke` (roi.py 1189-1209) and `KPIAgent.invoke` (kpi.py 560-581).
`oracle n` is the outcome of the agent-executor call on attempt index `n`
(0-based); the wait list records each `time.sleep(base * attempt)` issued
after an incremented failure count.  `remaining = maxAttempts - attempt`
drives the loop condition; `none` is Python falling off the loop without
returning (only possible when `max_attempts = 0`). -/
def retryGoF (oracle : Nat → Except String String) (base : Nat) :
    Nat → Nat → Option RetryResult × List Nat
  | _, 0 => (none, [])
  | attempt, rem + 1 =>
    match oracle attempt with
    | Except.ok t => (some (RetryResult.success t), [])
    | Except.error e =>
      if rem = 0 then
        (some (RetryResult.failure e), [])
      else
        let r := retryGoF oracle base (attempt + 1) rem
        (r.1, base * (attempt + 1) :: r.2)

/-- Entry to the loop with `attempt = 0`. -/
def callWithRetry (oracle : Nat → Except String String)
    (base maxAttempts : Nat) : Option RetryResult × List Nat :=
  retryGoF oracle base 0 maxAttempts

/-- The surrounding `invoke` body: a success returns `result["output"]`;
exhaustion returns the formatted error string (it is returned, not
raised). -/
def invokeWithRetry (label : String) (base maxAttempts : Nat)
    (oracle : Nat → Except String String) : Option String × List Nat :=
  match callWithRetry oracle base maxAttempts with
  | (some (RetryResult.success t), w) => (some t, w)
  | (some (RetryResult.failure e), w) =>
    (some ("Error in " ++ label ++ " after " ++ toString maxAttempts ++
           " attempts: " ++ e), w)
  | (none, w) => (none, w)

/-- `ROIAgent.invoke`: `max_attempts = 2`, `wait_time = 5 * attempt`. -/
def roiInvoke (oracle : Nat → Except String String) :
    Option String × List Nat :=
  invokeWithRetry "ROI analysis" 5 2 oracle

/-- `KPIAgent.invoke`: `max_attempts = 3`, `wait_time = 20 * attempt`. -/
def kpiInvoke (oracle : Nat → Except String String) :
    Option String × List Nat :=
  invokeWithRetry "KPI analysis" 20 3 oracle

/-! ## Sequential scheduler (SequentialGenerator.analyze_section) -/

/-- An entry of the sequential `results` dict: either the value returned by
the agent call, or the dict written by the per-agent `except` handler
(`results[agent_name] = {"error": str(e)}`, generator.py line 190). -/
inductive EntryVal
  | text (t : String)
  | errorEntry (msg : String)
deriving DecidableEq

/-- Per-agent `try` block of the sequential loop (generator.py 163-190):
the outcome of the underlying agent call becomes the recorded entry.  The
adapter boundary captures exceptions; it never re-raises. -/
def entryOf : Except String String → EntryVal
  | Except.ok t => EntryVal.text t
  | Except.error e => EntryVal.errorEntry e

/-- The `for agent_name in agents_needed` loop (generator.py 159-190):
every required agent is run in list order and its entry recorded in
`results`; a failure is recorded and the loop proceeds. -/
def runAgents (behavior : String → Except String String)
    (agents : List String) : List (String × EntryVal) :=
  agents.map (fun a => (a, entryOf (behavior a)))

/-- The six agent roles whose results own a `*_results` key, shared by the
sequential `if/elif` chain (generator.py 202-214) and the parallel
`AgentState` TypedDict (report_generator.py 34-39). -/
def slotRoles : List String :=
  ["exploration_agent", "sql_agent", "roi_agent", "budget_agent",
   "kpi_agent", "market_agent"]

/-- The `compilation_state` dict handed to `CompilerAgent.compile`
(generator.py 196-214): section, question and a role-keyed dict of result
slots (the slot for role `r` models the `r`-specific `*_results` key);
`none` means the key is absent from the dict. -/
structure CompState where
  currentSection : String
  currentQuestion : String
  slots : String → Option EntryVal

/-- The `if/elif` chain adding one `results` item to `compilation_state`
(generator.py 202-214); agent names outside the chain (there is an `elif`
exactly for the six slot roles) are not added. -/
def addResult (st : CompState) (p : String × EntryVal) : CompState :=
  if p.1 ∈ slotRoles then
    { st with slots := fun k => if k = p.1 then some p.2 else st.slots k }
  else st

/-- Build `compilation_state` from the collected results. -/
def buildCompState (sec q : String) (results : List (String × EntryVal)) :
    CompState :=
  results.foldl addResult
    { currentSection := sec, currentQuestion := q, slots := fun _ => none }

/-- Read a role's slot out of `compilation_state` (`state.get(key, {})`);
roles without a slot in the state read as absent. -/
def slotOf (st : CompState) (role : String) : Option EntryVal :=
  if role ∈ slotRoles then st.slots role else none

/-! ## Compiler stage (CompilerAgent.compile) -/

/-- Abstraction of the Python repr of the sequential failure entry
`{"error": msg}` as it is interpolated into the compiler prompt. -/
def renderErrorDict (msg : String) : String :=
  "error entry: " ++ msg

/-- `processed_X = X if X else "No results available"` (compiler.py
141-146): an absent key (read through `state.get(key, {})`), an empty
value and an empty string are all falsy and replaced. -/
def processEntry : Option EntryVal → String
  | none => "No results available"
  | some (EntryVal.text t) => if t = "" then "No results available" else t
  | some (EntryVal.errorEntry m) => renderErrorDict m

/-- Abstraction of `prompt.format(...)` (compiler.py 149-158): the prompt
is a fixed template instantiated with the section, the question and the
six processed results, so it is a function of exactly these eight
strings. -/
def formatPrompt (st : CompState) : String :=
  st.currentSection ++ "\n" ++ st.currentQuestion ++ "\n" ++
  processEntry (st.slots "exploration_agent") ++ "\n" ++
  processEntry (st.slots "sql_agent") ++ "\n" ++
  processEntry (st.slots "roi_agent") ++ "\n" ++
  processEntry (st.slots "budget_agent") ++ "\n" ++
  processEntry (st.slots "kpi_agent") ++ "\n" ++
  processEntry (st.slots "market_agent")

/-- `CompilerAgent.compile` (compiler.py 43-165).  `llm` is the outcome of
`self.llm.invoke` on the formatted prompt.  The whole body sits in a
`try`; the `except` clause (lines 162-165) returns the error message as
the section text instead of raising, so the function is total. -/
def compilerCompile (llm : String → Except String String)
    (st : CompState) : String :=
  match llm (formatPrompt st) with
  | Except.ok t => t
  | Except.error e => "Error compiling report section: " ++ e

/-- Result of one `analyze_section` call: the `{"result": ..., "metadata":
{"agents_used": ...}}` dict or the `{"error": ..., "metadata": {"section":
...}}` dict. -/
inductive SectionOutcome
  | result (text : String) (agentsUsed : List String)
  | errorResult (msg : String) (sec : String)
deriving DecidableEq

/-- `True` exactly on the `errorResult` form. -/
def SectionOutcome.isError : SectionOutcome → Bool
  | SectionOutcome.result _ _ => false
  | SectionOutcome.errorResult _ _ => true

/-- `SequentialGenerator.analyze_section` (generator.py 131-246): resolve
the required agents (error result if the section resolves to no agents),
run them in order collecting entries, then compile.  `behavior` gives each
agent call's outcome, `llm` the compiler's merge-call outcome. -/
def analyzeSection (behavior : String → Except String String)
    (llm : String → Except String String) (question sec : String) :
    SectionOutcome :=
  let agents := agentsNeeded sec
  if agents = [] then
    SectionOutcome.errorResult ("No agents defined for section: " ++ sec) sec
  else
    SectionOutcome.result
      (compilerCompile llm (buildCompState sec question
        (runAgents behavior agents))) agents

/-! ## Parallel scheduler (SupervisorAgent / LangGraph workflow) -/

/-- One result slot of the LangGraph `AgentState` TypedDict
(report_generator.py 30-40).  Every slot is initialized to the empty dict
`{}` (report_generator.py 248-259); a node overwrites its own slot with
either the agent result or the `"Error in ...: ..."` string written by its
`except` branch. -/
inductive ResultSlot
  | emptyDict
  | filledText (t : String)
  | filledError (m : String)
deriving DecidableEq

/-- The parallel workflow state.  The six `*_results` keys of the
`AgentState` dict are modelled as a role-keyed map `slots` (a Python dict
is exactly that); only the six roles of `slotRoles` are ever read. -/
structure ParState where
  currentSection : String
  currentQuestion : String
  slots : String → ResultSlot
  finalAnswer : String

/-- `initial_state` built by `SupervisorAgent.analyze`
(report_generator.py 248-259): every result slot starts as `{}`. -/
def initialParState (q sec : String) : ParState :=
  { currentSection := sec, currentQuestion := q,
    slots := fun _ => ResultSlot.emptyDict,
    finalAnswer := "" }

/-- The common shape of every worker node function (`run_exploration`,
`run_sql`, `run_roi`, `run_budget`, `run_kpi`, `run_market`,
report_generator.py 83-185): a membership check against the resolved
required-set, then either the agent call (success writes the result into
the node's own slot, failure writes the `"Error in <label>: ..."` string
into that same slot) or nothing at all. -/
def runAgentNode (role errLabel : String)
    (behavior : String → Except String String) (st : ParState) : ParState :=
  if role ∈ agentsNeeded st.currentSection then
    match behavior role with
    | Except.ok t =>
      { st with slots := fun k =>
          if k = role then ResultSlot.filledText t else st.slots k }
    | Except.error e =>
      { st with slots := fun k =>
          if k = role then
            ResultSlot.filledError ("Error in " ++ errLabel ++ ": " ++ e)
          else st.slots k }
  else st

/-- The worker nodes with the error label each one's `except` branch uses
(report_generator.py 94, 113, 129, 145, 161, 182). -/
def workerNodes : List (String × String) :=
  [("exploration_agent", "exploration"), ("sql_agent", "SQL analysis"),
   ("roi_agent", "ROI analysis"), ("budget_agent", "budget analysis"),
   ("kpi_agent", "KPI analysis"), ("market_agent", "market analysis")]

/-- The fan-out/fan-in phase of the workflow: the supervisor node is the
identity, the six worker nodes each touch only their own slot (so their
execution order is immaterial) and the join waits for all of them before
the compiler node runs. -/
def parallelWorkersRun (behavior : String → Except String String)
    (st : ParState) : ParState :=
  workerNodes.foldl (fun s p => runAgentNode p.1 p.2 behavior s) st

/-- Read a role's slot of the parallel state as the compiler node sees it:
`some` for the six TypedDict result keys (always present), `none` for a
key that is not part of the state. -/
def parSlotOf (st : ParState) (role : String) : Option ResultSlot :=
  if role ∈ slotRoles then some (st.slots role) else none

/-- The workers constructed unconditionally by `SupervisorAgent.__init__`
(report_generator.py 50-56) before any section is known: every specialist
worker plus the compiler. -/
def supervisorInitConstructs : List String :=
  ["exploration_agent", "sql_agent", "roi_agent", "budget_agent",
   "kpi_agent", "market_agent", "compiler_agent"]

/-- View of a parallel slot as a compiler input: `{}` is falsy like an
absent key; a written slot carries a plain string (success text or the
error string), so both arrive as text. -/
def slotToEntry : ResultSlot → Option EntryVal
  | ResultSlot.emptyDict => none
  | ResultSlot.filledText t => some (EntryVal.text t)
  | ResultSlot.filledError m => some (EntryVal.text m)

/-- Convert the parallel state into the state read by
`CompilerAgent.compile` through its six `state.get(key, {})` calls. -/
def parToCompState (st : ParState) : CompState :=
  { currentSection := st.currentSection,
    currentQuestion := st.currentQuestion,
    slots := fun k => slotToEntry (st.slots k) }

/-- The `compiler` node `compile_results` (report_generator.py 188-199):
runs once after the join and writes `final_answer`; `compile` itself is
total, so the node's own `except` branch is unreachable. -/
def compileResultsNode (llm : String → Except String String)
    (st : ParState) : ParState :=
  { st with finalAnswer := compilerCompile llm (parToCompState st) }

/-- A full parallel orchestration run for one `(question, section)`. -/
def parallelAnalyze (behavior llm : String → Except String String)
    (q sec : String) : ParState :=
  compileResultsNode llm (parallelWorkersRun behavior (initialParState q sec))

/-! ## Batch entry point (SequentialGenerator.generate_report) -/

/-- Outcome of one `self.analyze_section(question, section)` call as seen
by `generate_report`: the returned dict, or an exception escaping it. -/
inductive SectionCall
  | returns (r : SectionOutcome)
  | throws (msg : String)
deriving DecidableEq

/-- `True` exactly on the `throws` form. -/
def SectionCall.isThrow : SectionCall → Bool
  | SectionCall.returns _ => false
  | SectionCall.throws _ => true

/-- Accumulated state of the `generate_report` loop: the per-section
document contents, the `errors` list, and the total inter-section pause
time requested from `time.sleep`. -/
structure ReportAcc where
  reportResults : List (String × String)
  errors : List String
  pauseTotal : Nat
deriving DecidableEq

/-- One iteration of the `for section, question in ...` loop
(generator.py 264-292).  `total` is the number of sections and `i` the
position of the current one (dict keys are unique, so
`list(keys).index(section) = i`).  On a returned error dict the document
content is `result.get("result", "")` (empty) and the error is appended to
`errors`; on an escaping exception the content is the explicit
`"Error generating content: ..."` message; the 5-second pause runs after
every non-final section whose body did not raise. -/
def reportStep (total i : Nat) (sec : String) (c : SectionCall)
    (acc : ReportAcc) : ReportAcc :=
  match c with
  | SectionCall.returns r =>
    { reportResults := acc.reportResults ++
        [(sec, match r with
               | SectionOutcome.result t _ => t
               | SectionOutcome.errorResult _ _ => "")],
      errors := match r with
        | SectionOutcome.result _ _ => acc.errors
        | SectionOutcome.errorResult m _ =>
          acc.errors ++ ["Error in " ++ sec ++ ": " ++ m],
      pauseTotal := acc.pauseTotal + (if i < total - 1 then 5 else 0) }
  | SectionCall.throws m =>
    { reportResults := acc.reportResults ++
        [(sec, "Error generating content: " ++ m)],
      errors := acc.errors ++ ["Error in " ++ sec ++ ": " ++ m],
      pauseTotal := acc.pauseTotal }

/-- The loop of `generate_report`, processing the remaining sections from
position `i`. -/
def reportGo (call : String → String → SectionCall) (total : Nat) :
    Nat → List (String × String) → ReportAcc → ReportAcc
  | _, [], acc => acc
  | i, p :: rest, acc =>
    reportGo call total (i + 1) rest
      (reportStep total i p.1 (call p.1 p.2) acc)

/-- `SequentialGenerator.generate_report` (generator.py 248-305): iterate
every `(section, question)` pair, never raising. -/
def generateReport (call : String → String → SectionCall)
    (secs : List (String × String)) : ReportAcc :=
  reportGo call secs.length 0 secs
    { reportResults := [], errors := [], pauseTotal := 0 }

/-- Document content produced for one section, by branch. -/
def sectionContent : SectionCall → String
  | SectionCall.returns (SectionOutcome.result t _) => t
  | SectionCall.returns (SectionOutcome.errorResult _ _) => ""
  | SectionCall.throws m => "Error generating content: " ++ m

/-- `errors` entries produced for one section, by branch. -/
def sectionErrors (sec : String) : SectionCall → List String
  | SectionCall.returns (SectionOutcome.result _ _) => []
  | SectionCall.returns (SectionOutcome.errorResult m _) =>
    ["Error in " ++ sec ++ ": " ++ m]
  | SectionCall.throws m => ["Error in " ++ sec ++ ": " ++ m]

/-! ## Agent registry (SequentialGenerator._get_agent) -/

/-- The seven agent names `_get_agent` knows how to construct
(generator.py 104-127). -/
def knownAgentNames : List String :=
  ["exploration_agent", "sql_agent", "roi_agent", "budget_agent",
   "kpi_agent", "market_agent", "compiler_agent"]

/-- The lazy agent cache `self._agents`: a dict from agent name to the
constructed instance (object identity modelled as a serial number handed
out by `nextId`), plus the construction log. -/
structure Registry where
  cache : List (String × Nat)
  nextId : Nat
  built : List String
deriving DecidableEq

/-- `SequentialGenerator._get_agent` (generator.py 91-129): return the
cached instance if present; otherwise construct (recording the
construction), cache, and return it; unknown names raise `ValueError`. -/
def getAgent (reg : Registry) (name : String) :
    Except String (Registry × Nat) :=
  match reg.cache.lookup name with
  | some inst => Except.ok (reg, inst)
  | none =>
    if name ∈ knownAgentNames then
      Except.ok ({ cache := reg.cache ++ [(name, reg.nextId)],
                   nextId := reg.nextId + 1,
                   built := reg.built ++ [name] }, reg.nextId)
    else Except.error ("Unknown agent: " ++ name)

/-- Number of times a role was constructed. -/
def buildCount (reg : Registry) (name : String) : Nat :=
  (reg.built.filter (fun b => b = name)).length

/-! ## Shared data manager (utils/data_manager.py) -/

/-- The `DataManager` instance: its stored `data_path` and the loaded
dataframes (abstracted to names paired with opaque content ids). -/
structure DataManagerInst where
  dataPath : Option String
  frames : List (String × Nat)
deriving DecidableEq

/-- Default path computed inside `get_data_manager` when called with
`None` (data_manager.py 117-119). -/
def defaultDataPath : String := "<utils dir>/../data"

/-- `DataManager(data_path)` (data_manager.py 24-40): `__new__` returns
the existing `_instance` when there is one, and `__init__` returns early
on an already-initialized instance, so a later construction ignores its
`data_path` argument entirely; only a first construction loads data
(`load` abstracts `_load_data`). -/
def constructDataManager (load : Option String → List (String × Nat))
    (inst : Option DataManagerInst) (path : Option String) :
    DataManagerInst :=
  match inst with
  | some dm => dm
  | none => { dataPath := path, frames := load path }

/-- `get_data_manager` (data_manager.py 115-121): default the path, then
construct. -/
def getDataManager (load : Option String → List (String × Nat))
    (inst : Option DataManagerInst) (path : Option String) :
    DataManagerInst :=
  constructDataManager load inst (some (path.getD defaultDataPath))

/-- A sequence of `get_data_manager` calls against the module-level
`_instance` cell, returning the final cell and each call's result. -/
def dmCallSeq (load : Option String → List (String × Nat)) :
    Option DataManagerInst → List (Option String) →
    Option DataManagerInst × List DataManagerInst
  | inst, [] => (inst, [])
  | inst, p :: rest =>
    let dm := getDataManager load inst p
    let r := dmCallSeq load (some dm) rest
    (r.1, dm :: r.2)

/-! ## Concrete fixtures -/

/-- A behavior where every agent call returns a fixed text. -/
def behaviorOkA : String → Except String String :=
  fun _ => Except.ok "findings"

/-- An llm oracle whose merge call always raises. -/
def llmBoom : String → Except String String :=
  fun _ => Except.error "boom"

/-- An llm oracle that is down. -/
def llmDown : String → Except String String :=
  fun _ => Except.error "api down"

/-- An attempt oracle that fails on every call. -/
def oracleAllFail : Nat → Except String String :=
  fun _ => Except.error "boom"

/-- The per-attempt error messages of `oracleAllFail`. -/
def errsBoom : Nat → String := fun _ => "boom"

/-- An attempt oracle failing only on the first call. -/
def oracleOneFail : Nat → Except String String := fun n =>
  if n = 0 then Except.error "rate limit" else Except.ok "kpi findings"

/-- A behavior in which the ROI agent call returns the exhausted-retry
error string (exactly what `ROIAgent.invoke` hands back after running out
of attempts) and every other agent succeeds. -/
def behaviorRoiExhausted : String → Except String String := fun a =>
  if a = "roi_agent" then
    Except.ok "Error in ROI analysis after 2 attempts: boom"
  else Except.ok "fine"

/-- A failure-or-absent compiler input slot. -/
def isFailureSlot : Option EntryVal → Bool
  | none => true
  | some (EntryVal.errorEntry _) => true
  | some (EntryVal.text _) => false

/-- Every slot of the aggregated state is a Failure entry or absent. -/
def allFailureState (st : CompState) : Bool :=
  slotRoles.all (fun r => isFailureSlot (st.slots r))

/-- An all-Failure aggregated state for `budget_allocation`. -/
def stAllFail : CompState :=
  { currentSection := "budget_allocation", currentQuestion := "q",
    slots := fun k =>
      if k = "budget_agent" then some (EntryVal.errorEntry "timeout")
      else if k = "sql_agent" then some (EntryVal.errorEntry "timeout")
      else none }

/-- The value a required role's node writes into its own slot. -/
def nodeOutcome (errLabel : String)
    (behavior : String → Except String String) (role : String) :
    ResultSlot :=
  match behavior role with
  | Except.ok t => ResultSlot.filledText t
  | Except.error e =>
    ResultSlot.filledError ("Error in " ++ errLabel ++ ": " ++ e)

/-- Batch fixture: the known section succeeds, the unknown one returns the
unknown-section error result. -/
def callC8 : String → String → SectionCall := fun sec _ =>
  if sec = "unknown_section" then
    SectionCall.returns (SectionOutcome.errorResult
      ("No agents defined for section: " ++ sec) sec)
  else
    SectionCall.returns (SectionOutcome.result "text" ["exploration_agent"])

/-- Batch fixture input: one known and one unknown section. -/
def secsC8 : List (String × String) :=
  [("executive_summary", "q1"), ("unknown_section", "q2")]

/-- Batch fixture: every section returns the unknown-section error
result. -/
def callErrOnly : String → String → SectionCall := fun sec _ =>
  SectionCall.returns (SectionOutcome.errorResult
    ("No agents defined for section: " ++ sec) sec)

/-- The empty registry of a fresh `SequentialGenerator`. -/
def emptyRegistry : Registry := { cache := [], nextId := 0, built := [] }

/-! ## Foundational lemmas -/

/-- A successful `List.lookup` pins an element of the association list. -/
theorem lookup_mem {α β : Type} [BEq α] [LawfulBEq α]
    (l : List (α × β)) (a : α) (b : β) (h : l.lookup a = some b) :
    (a, b) ∈ l := by
  induction l with
  | nil => simp [List.lookup] at h
  | cons p rest ih =>
    rw [show p = (p.1, p.2) from rfl] at h ⊢
    rw [List.lookup_cons] at h
    by_cases hab : a == p.1
    · simp [hab] at h
      have : a = p.1 := eq_of_beq hab
      subst this
      simp [h]
    · simp [hab] at h
      exact List.mem_cons_of_mem _ (ih h)

/-- Every entry of the static table is a non-empty, duplicate-free role
list. -/
theorem sectionAgentMapping_entries :
    ∀ p ∈ sectionAgentMapping, p.2 ≠ [] ∧ p.2.Nodup := by decide

/-- The resolved role list never contains a duplicate role. -/
theorem agentsNeeded_nodup (sec : String) : (agentsNeeded sec).Nodup := by
  unfold agentsNeeded
  cases h : sectionAgentMapping.lookup sec with
  | none => simp
  | some roles =>
    simpa using (sectionAgentMapping_entries _ (lookup_mem _ _ _ h)).2

/-- Retry loop, success case: if every attempt in `[a, k)` fails and
attempt `k` succeeds (with `k` still within the attempt budget), the loop
returns that success and sleeps `base * (a + j + 1)` after the `j`-th of
those failures. -/
theorem retryGoF_ok (oracle : Nat → Except String String) (base : Nat) :
    ∀ rem a k t, a ≤ k → k < a + rem →
      (∀ i, a ≤ i → i < k → ∃ e, oracle i = Except.error e) →
      oracle k = Except.ok t →
      retryGoF oracle base a rem =
        (some (RetryResult.success t),
         (List.range (k - a)).map (fun j => base * (a + j + 1))) := by
  intro rem
  induction rem with
  | zero => intro a k t hak hk _ _; omega
  | succ m ih =>
    intro a k t hak hk hfail hok
    by_cases hek : a = k
    · subst hek
      simp [retryGoF, hok]
    · have hlt : a < k := lt_of_le_of_ne hak hek
      obtain ⟨e, he⟩ := hfail a le_rfl hlt
      have hm : m ≠ 0 := by omega
      have ihr := ih (a + 1) k t (by omega) (by omega)
        (fun i hi1 hi2 => hfail i (by omega) hi2) hok
      simp only [retryGoF, he, if_neg hm, ihr]
      congr 1
      have hka : k - a = (k - (a + 1)) + 1 := by omega
      have htail : (List.range (k - (a + 1))).map
            ((fun j => base * (a + j + 1)) ∘ Nat.succ)
          = (List.range (k - (a + 1))).map (fun j => base * (a + 1 + j + 1)) := by
        apply List.map_congr_left
        intro j _
        simp only [Function.comp_apply]
        congr 1
        omega
      rw [hka, List.range_succ_eq_map, List.map_cons, List.map_map, htail]

/-- Retry loop, exhaustion case: if every attempt fails, the loop returns
the failure of the final attempt (index `a + rem - 1`) and sleeps after
every failure but the last. -/
theorem retryGoF_allFail (oracle : Nat → Except String String) (base : Nat)
    (errs : Nat → String) :
    ∀ rem a, 0 < rem →
      (∀ i, oracle i = Except.error (errs i)) →
      retryGoF oracle base a rem =
        (some (RetryResult.failure (errs (a + rem - 1))),
         (List.range (rem - 1)).map (fun j => base * (a + j + 1))) := by
  intro rem
  induction rem with
  | zero => intro a h; omega
  | succ m ih =>
    intro a _ hfail
    by_cases hm : m = 0
    · subst hm
      simp [retryGoF, hfail a]
    · have ihr := ih (a + 1) (by omega) hfail
      simp only [retryGoF, hfail a, if_neg hm, ihr]
      congr 1
      · have hidx : a + 1 + m - 1 = a + (m + 1) - 1 := by omega
        rw [hidx]
      · have hmsucc : m + 1 - 1 = (m - 1) + 1 := by omega
        have htail : (List.range (m - 1)).map
              ((fun j => base * (a + j + 1)) ∘ Nat.succ)
            = (List.range (m - 1)).map (fun j => base * (a + 1 + j + 1)) := by
          apply List.map_congr_left
          intro j _
          simp only [Function.comp_apply]
          congr 1
          omega
        rw [hmsucc, List.range_succ_eq_map, List.map_cons, List.map_map, htail]

/-- The recorded waits for `k` initial failures sum to
`base * (1 + 2 + ... + k)` exactly. -/
theorem retry_wait_sum (base k : Nat) :
    (((List.range k).map (fun j => base * (j + 1))).sum) =
      base * (List.range (k + 1)).sum := by
  induction k with
  | zero => simp [List.range_succ]
  | succ n ih =>
    rw [List.range_succ, List.map_append, List.sum_append, ih,
        List.range_succ (n := n + 1), List.sum_append]
    simp [Nat.mul_add]

/-! ## Helper lemmas -/

/-- A skipped node is the identity on the whole state. -/
theorem runAgentNode_skip (role errLabel : String)
    (behavior : String → Except String String) (st : ParState)
    (h : role ∉ agentsNeeded st.currentSection) :
    runAgentNode role errLabel behavior st = st := by
  unfold runAgentNode
  simp [h]

/-- A node never changes the current section. -/
theorem runAgentNode_currentSection (role errLabel : String)
    (behavior : String → Except String String) (st : ParState) :
    (runAgentNode role errLabel behavior st).currentSection =
      st.currentSection := by
  unfold runAgentNode
  split
  · cases behavior role <;> rfl
  · rfl

/-- A node leaves every slot other than its own untouched. -/
theorem runAgentNode_other_slot (role errLabel k : String)
    (behavior : String → Except String String) (st : ParState)
    (hk : k ≠ role) :
    (runAgentNode role errLabel behavior st).slots k = st.slots k := by
  unfold runAgentNode
  split
  · cases behavior role <;> simp [hk]
  · rfl

/-- A node required by the section writes exactly the outcome of its own
agent call into its own slot. -/
theorem runAgentNode_own_slot (role errLabel : String)
    (behavior : String → Except String String) (st : ParState)
    (h : role ∈ agentsNeeded st.currentSection) :
    (runAgentNode role errLabel behavior st).slots role =
      match behavior role with
      | Except.ok t => ResultSlot.filledText t
      | Except.error e =>
        ResultSlot.filledError ("Error in " ++ errLabel ++ ": " ++ e) := by
  unfold runAgentNode
  rw [if_pos h]
  cases behavior role <;> simp

/-- The fan-out phase never changes the current section. -/
theorem workersFold_currentSection
    (behavior : String → Except String String) :
    ∀ (nodes : List (String × String)) (st : ParState),
      (nodes.foldl (fun s p => runAgentNode p.1 p.2 behavior s)
        st).currentSection = st.currentSection := by
  intro nodes
  induction nodes with
  | nil => intro st; rfl
  | cons p rest ih =>
    intro st
    rw [List.foldl_cons, ih, runAgentNode_currentSection]

/-- The fan-out phase leaves the slot of any role that has no node among
`nodes`, or whose role is not required by the section, untouched. -/
theorem workersFold_slot_skip (behavior : String → Except String String)
    (role : String) :
    ∀ (nodes : List (String × String)) (st : ParState),
      role ∉ agentsNeeded st.currentSection →
      (nodes.foldl (fun s p => runAgentNode p.1 p.2 behavior s)
        st).slots role = st.slots role := by
  intro nodes
  induction nodes with
  | nil => intro st _; rfl
  | cons p rest ih =>
    intro st h
    rw [List.foldl_cons]
    by_cases hp : role = p.1
    · subst hp
      rw [runAgentNode_skip _ _ _ _ h]
      exact ih st h
    · rw [ih _ (by rw [runAgentNode_currentSection]; exact h),
          runAgentNode_other_slot _ _ _ _ _ hp]

/-- If `role`'s node appears exactly once among the remaining nodes and
the role is required, the fan-out phase ends with `role`'s slot holding
the outcome of its own agent call. -/
theorem workersFold_slot_written (behavior : String → Except String String)
    (role errLabel : String) :
    ∀ (nodes : List (String × String)) (st : ParState),
      role ∈ agentsNeeded st.currentSection →
      (role, errLabel) ∈ nodes →
      (nodes.map Prod.fst).Nodup →
      (nodes.foldl (fun s p => runAgentNode p.1 p.2 behavior s)
        st).slots role =
        match behavior role with
        | Except.ok t => ResultSlot.filledText t
        | Except.error e =>
          ResultSlot.filledError ("Error in " ++ errLabel ++ ": " ++ e) := by
  intro nodes
  induction nodes with
  | nil => intro st _ hmem _; cases hmem
  | cons p rest ih =>
    intro st hreq hmem hnd
    rw [List.foldl_cons]
    rcases List.mem_cons.mp hmem with hp | hp
    · have hrole : p.1 = role := by rw [← hp]
      have hnotin : role ∉ rest.map Prod.fst := by
        rw [List.map_cons] at hnd
        have := (List.nodup_cons.mp hnd).1
        rw [hrole] at this
        exact this
      have hslot : ∀ q ∈ rest, q.1 ≠ role := by
        intro q hq hcontra
        exact hnotin (hcontra ▸ List.mem_map_of_mem Prod.fst hq)
      -- the later nodes do not touch `role`'s slot
      have huntouched : ∀ (st2 : ParState),
          (rest.foldl (fun s p2 => runAgentNode p2.1 p2.2 behavior s)
            st2).slots role = st2.slots role := by
        intro st2
        clear ih hmem hnd hnotin
        induction rest generalizing st2 with
        | nil => rfl
        | cons q qs ihq =>
          rw [List.foldl_cons, ihq (fun r hr => hslot r (List.mem_cons_of_mem q hr)),
              runAgentNode_other_slot _ _ _ _ _
                (fun hcq => (hslot q (List.mem_cons_self q qs)) hcq.symm)]
      rw [huntouched, ← hp]
      exact runAgentNode_own_slot role errLabel behavior st hreq
    · have hp1 : p.1 ≠ role := by
        rw [List.map_cons] at hnd
        intro hcontra
        exact (List.nodup_cons.mp hnd).1
          (hcontra ▸ List.mem_map_of_mem Prod.fst hp)
      exact ih (runAgentNode p.1 p.2 behavior st)
        (by rw [runAgentNode_currentSection]; exact hreq) hp
        (List.nodup_cons.mp (by rw [List.map_cons] at hnd; exact hnd)).2

/-- The sequential `results` dict has exactly the required agents as keys,
in execution order. -/
theorem runAgents_keys (behavior : String → Except String String)
    (agents : List String) :
    (runAgents behavior agents).map Prod.fst = agents := by
  unfold runAgents
  rw [List.map_map]
  exact List.map_id agents

/-- `addResult` leaves the slot of any other agent name untouched. -/
theorem slotOf_addResult_ne (st : CompState) (p : String × EntryVal)
    (role : String) (h : p.1 ≠ role) :
    slotOf (addResult st p) role = slotOf st role := by
  have hne : role ≠ p.1 := fun hc => h hc.symm
  by_cases hs : p.1 ∈ slotRoles
  · simp [addResult, slotOf, hs, hne]
  · simp [addResult, slotOf, hs]

/-- `addResult` records a slot-owning agent's entry in its own slot. -/
theorem slotOf_addResult_eq (st : CompState) (p : String × EntryVal)
    (hmem : p.1 ∈ slotRoles) :
    slotOf (addResult st p) p.1 = some p.2 := by
  unfold addResult slotOf
  simp [hmem]

/-- Folding results whose keys avoid `role` leaves `role`'s slot
untouched. -/
theorem slotOf_foldl_not_mem (role : String) :
    ∀ (results : List (String × EntryVal)) (st : CompState),
      role ∉ results.map Prod.fst →
      slotOf (results.foldl addResult st) role = slotOf st role := by
  intro results
  induction results with
  | nil => intro st _; rfl
  | cons p rest ih =>
    intro st h
    rw [List.map_cons] at h
    rw [List.foldl_cons, ih _ (fun hc => h (List.mem_cons_of_mem _ hc)),
        slotOf_addResult_ne _ _ _ (fun hc => h (hc ▸ List.mem_cons_self _ _))]

/-- Folding the entries of a duplicate-free agent list stores each
slot-owning agent's entry in its own slot. -/
theorem slotOf_foldl_written (behavior : String → Except String String)
    (role : String) (hrole : role ∈ slotRoles) :
    ∀ (agents : List String) (st : CompState),
      agents.Nodup → role ∈ agents →
      slotOf ((runAgents behavior agents).foldl addResult st) role =
        some (entryOf (behavior role)) := by
  intro agents
  induction agents with
  | nil => intro st _ hmem; cases hmem
  | cons a rest ih =>
    intro st hnd hmem
    have hrests : runAgents behavior (a :: rest) =
        (a, entryOf (behavior a)) :: runAgents behavior rest := rfl
    rw [hrests, List.foldl_cons]
    rcases List.mem_cons.mp hmem with h | h
    · subst h
      have hnotin : role ∉ rest := (List.nodup_cons.mp hnd).1
      rw [slotOf_foldl_not_mem role _ _ (by rw [runAgents_keys]; exact hnotin)]
      exact slotOf_addResult_eq st (role, entryOf (behavior role)) hrole
    · exact ih _ (List.nodup_cons.mp hnd).2 h

/-- Every role required by some section owns a result slot. -/
theorem agentsNeeded_sub_slotRoles (sec role : String)
    (h : role ∈ agentsNeeded sec) : role ∈ slotRoles := by
  unfold agentsNeeded at h
  cases hl : sectionAgentMapping.lookup sec with
  | none => rw [hl] at h; cases h
  | some roles =>
    rw [hl] at h
    have hmem := lookup_mem _ _ _ hl
    have : ∀ p ∈ sectionAgentMapping, ∀ r ∈ p.2, r ∈ slotRoles := by decide
    exact this _ hmem role h

/-- Closed form of the `generate_report` document contents. -/
theorem reportGo_results (call : String → String → SectionCall)
    (total : Nat) :
    ∀ (secs : List (String × String)) (i : Nat) (acc : ReportAcc),
      (reportGo call total i secs acc).reportResults =
        acc.reportResults ++
          secs.map (fun p => (p.1, sectionContent (call p.1 p.2))) := by
  intro secs
  induction secs with
  | nil => intro i acc; simp [reportGo]
  | cons p rest ih =>
    intro i acc
    rw [reportGo, ih]
    cases hc : call p.1 p.2 with
    | returns r =>
      cases r <;> simp [reportStep, sectionContent, hc]
    | throws m => simp [reportStep, sectionContent, hc]

/-- Closed form of the `generate_report` error list. -/
theorem reportGo_errors (call : String → String → SectionCall)
    (total : Nat) :
    ∀ (secs : List (String × String)) (i : Nat) (acc : ReportAcc),
      (reportGo call total i secs acc).errors =
        acc.errors ++
          (secs.map (fun p => sectionErrors p.1 (call p.1 p.2))).flatten := by
  intro secs
  induction secs with
  | nil => intro i acc; simp [reportGo]
  | cons p rest ih =>
    intro i acc
    rw [reportGo, ih]
    cases hc : call p.1 p.2 with
    | returns r =>
      cases r <;> simp [reportStep, sectionErrors, hc]
    | throws m => simp [reportStep, sectionErrors, hc]

/-- Total pause time of a throw-free run: five time units after every
section but the last. -/
theorem reportGo_pause (call : String → String → SectionCall)
    (total : Nat) :
    ∀ (secs : List (String × String)) (i : Nat) (acc : ReportAcc),
      i + secs.length = total →
      (∀ p ∈ secs, (call p.1 p.2).isThrow = false) →
      (reportGo call total i secs acc).pauseTotal =
        acc.pauseTotal + 5 * (secs.length - 1) := by
  intro secs
  induction secs with
  | nil => intro i acc _ _; simp [reportGo]
  | cons p rest ih =>
    intro i acc hlen hnothrow
    rw [reportGo]
    cases hc : call p.1 p.2 with
    | returns r =>
      rw [ih (i + 1) _ (by simp at hlen ⊢; omega)
            (fun q hq => hnothrow q (List.mem_cons_of_mem p hq))]
      cases rest with
      | nil =>
        have : ¬ i < total - 1 := by simp at hlen; omega
        simp [reportStep, this]
      | cons q qs =>
        have : i < total - 1 := by simp at hlen; omega
        cases r <;> (simp [reportStep, this]; omega)
    | throws m =>
      have := hnothrow p (List.mem_cons_self p rest)
      rw [hc] at this
      simp [SectionCall.isThrow] at this

/-! ## Claim C1 -/

/-- Claim C1, amended: during a parallel orchestration run, a worker node
whose role is not in the section's resolved required-set is a no-op beyond
the membership check — it leaves the state unchanged and never consults
the worker (the result is independent of the worker behavior).  However,
the skipped role's worker is still constructed: `SupervisorAgent.__init__`
constructs every slot-owning worker up front, independent of section. -/
theorem c1_skip_invocation_only (role errLabel : String)
    (b1 b2 : String → Except String String) (st : ParState)
    (h : role ∉ agentsNeeded st.currentSection) :
    runAgentNode role errLabel b1 st = st ∧
    runAgentNode role errLabel b1 st = runAgentNode role errLabel b2 st ∧
    ∀ r ∈ slotRoles, r ∈ supervisorInitConstructs := by
  refine ⟨runAgentNode_skip _ _ _ _ h, ?_, by decide⟩
  rw [runAgentNode_skip _ _ _ _ h, runAgentNode_skip _ _ _ _ h]

/-- Witness for C1's amended theorem: the SQL node is a no-op for
`executive_summary`, which does not require the SQL agent. -/
theorem c1_skip_invocation_only_witness :
    runAgentNode "sql_agent" "SQL analysis" behaviorOkA
        (initialParState "q" "executive_summary") =
      initialParState "q" "executive_summary" :=
  (c1_skip_invocation_only "sql_agent" "SQL analysis" behaviorOkA behaviorOkA
    (initialParState "q" "executive_summary") (by decide)).1

/-- Counterexample to C1 as stated: the SQL worker is not required by
`executive_summary`, yet `SupervisorAgent.__init__` constructs it anyway
(construction is unconditional, report_generator.py 50-56), so the claim
that the worker is "neither constructed nor invoked" fails here. -/
theorem c1_construction_counterexample :
    "sql_agent" ∈ supervisorInitConstructs ∧
    "sql_agent" ∉ agentsNeeded "executive_summary" := by decide

/-! ## Claim C2 -/

/-- Claim C2, amended: a failure of the compiler's own merge call never
aborts the orchestration run and is not escalated: `CompilerAgent.compile`
catches it (compiler.py 162-165) and returns the message
`"Error compiling report section: ..."` as the section text, so
`analyze_section` still returns a normal (non-error) result for every
known section; per-role failures (already folded into `behavior`) never
abort either. -/
theorem c2_merge_failure_no_abort
    (behavior llm : String → Except String String) (q sec : String)
    (h : agentsNeeded sec ≠ []) :
    (analyzeSection behavior llm q sec).isError = false ∧
    (∀ e, llm (formatPrompt (buildCompState sec q
        (runAgents behavior (agentsNeeded sec)))) = Except.error e →
      analyzeSection behavior llm q sec =
        SectionOutcome.result ("Error compiling report section: " ++ e)
          (agentsNeeded sec)) := by
  constructor
  · unfold analyzeSection
    simp [h, SectionOutcome.isError]
  · intro e he
    unfold analyzeSection
    simp [h, compilerCompile, he]

/-- Witness for C2's amended theorem: with a merge call that raises, the
run still returns a normal result carrying the error text. -/
theorem c2_merge_failure_no_abort_witness :
    analyzeSection behaviorOkA llmBoom "q" "executive_summary" =
      SectionOutcome.result ("Error compiling report section: " ++ "boom")
        (agentsNeeded "executive_summary") :=
  (c2_merge_failure_no_abort behaviorOkA llmBoom "q" "executive_summary"
    (by decide)).2 "boom" rfl

/-- Counterexample to C2 as stated: concrete run in which the compiler's
merge call raises, yet the orchestration does not abort — the caller
receives a normal result whose text is the compiler's captured error
message, not a structured error. -/
theorem c2_merge_failure_counterexample :
    (analyzeSection behaviorOkA llmBoom "q" "executive_summary").isError =
      false ∧
    analyzeSection behaviorOkA llmBoom "q" "executive_summary" =
      SectionOutcome.result "Error compiling report section: boom"
        ["exploration_agent"] := by
  constructor
  · rfl
  · decide

/-! ## Claim C3 -/

/-- Claim C3: on an aggregated state whose entries are all Failures, the
compiler stage does not raise (`compilerCompile` is total by construction,
mirroring the blanket `except` of compiler.py 162-165) and returns
non-empty text: the degraded error path always produces a non-empty
message, and the merge path returns the merge output, non-empty whenever
the underlying text generation produces non-empty text. -/
theorem c3_all_failure_compile (st : CompState)
    (llm : String → Except String String)
    (_hfail : allFailureState st = true)
    (hok : ∀ t, llm (formatPrompt st) = Except.ok t → t ≠ "") :
    compilerCompile llm st ≠ "" := by
  unfold compilerCompile
  cases hl : llm (formatPrompt st) with
  | ok t => exact hok t hl
  | error e =>
    intro hc
    have hlen := congrArg String.length hc
    rw [String.length_append] at hlen
    have h1 : ("Error compiling report section: ").length = 32 := rfl
    have h2 : ("" : String).length = 0 := rfl
    omega

/-- Witness for C3: compiling an all-Failure state while the merge backend
is down still yields non-empty text. -/
theorem c3_all_failure_compile_witness :
    compilerCompile llmDown stAllFail ≠ "" :=
  c3_all_failure_compile stAllFail llmDown (by decide)
    (by intro t ht; simp [llmDown] at ht)

/-! ## Claim C4 -/

/-- Claim C4: when every attempt fails, `ROIAgent.invoke` returns (not
raises) the failure message carrying the final attempt's error; recorded
as that role's entry, the sequential loop still processes every role
before and after it. -/
theorem c4_per_role_failure_isolated
    (oracle : Nat → Except String String) (errs : Nat → String)
    (hfail : ∀ i, oracle i = Except.error (errs i))
    (behavior : String → Except String String) (pre post : List String)
    (hrole : behavior "roi_agent" =
      Except.ok ("Error in ROI analysis after 2 attempts: " ++ errs 1)) :
    (roiInvoke oracle).1 =
      some ("Error in ROI analysis after 2 attempts: " ++ errs 1) ∧
    runAgents behavior (pre ++ "roi_agent" :: post) =
      runAgents behavior pre ++
        ("roi_agent", EntryVal.text
          ("Error in ROI analysis after 2 attempts: " ++ errs 1)) ::
        runAgents behavior post := by
  constructor
  · unfold roiInvoke invokeWithRetry callWithRetry
    rw [retryGoF_allFail oracle 5 errs 2 0 (by omega) hfail]
    rfl
  · unfold runAgents
    rw [List.map_append, List.map_cons]
    simp [entryOf, hrole]

/-- Witness for C4: a concrete always-failing ROI worker between two
healthy roles. -/
theorem c4_per_role_failure_isolated_witness :
    (roiInvoke oracleAllFail).1 =
      some ("Error in ROI analysis after 2 attempts: " ++ errsBoom 1) ∧
    runAgents behaviorRoiExhausted
        (["kpi_agent"] ++ "roi_agent" :: ["sql_agent"]) =
      runAgents behaviorRoiExhausted ["kpi_agent"] ++
        ("roi_agent", EntryVal.text
          ("Error in ROI analysis after 2 attempts: " ++ errsBoom 1)) ::
        runAgents behaviorRoiExhausted ["sql_agent"] :=
  c4_per_role_failure_isolated oracleAllFail errsBoom (fun _ => rfl)
    behaviorRoiExhausted ["kpi_agent"] ["sql_agent"] rfl

/-! ## Claim C5 -/

/-- Claim C5, amended: for a worker that fails exactly `k < max_attempts`
times and then succeeds, the retry loop returns Success, retries only on
failure (one backoff per failure), waits `base_delay * (N - 1)` before the
Nth attempt (N ≥ 2) — not `base_delay * N` — and the total wait equals
`base_delay * (1 + 2 + ... + k)`, hence is at least that sum. -/
theorem c5_retry_success_amended (oracle : Nat → Except String String)
    (base maxA k : Nat) (t : String) (hk : k < maxA)
    (hfail : ∀ i, i < k → ∃ e, oracle i = Except.error e)
    (hok : oracle k = Except.ok t) :
    (callWithRetry oracle base maxA).1 = some (RetryResult.success t) ∧
    (callWithRetry oracle base maxA).2 =
      (List.range k).map (fun j => base * (j + 1)) ∧
    (callWithRetry oracle base maxA).2.sum =
      base * (List.range (k + 1)).sum := by
  have h := retryGoF_ok oracle base maxA 0 k t (by omega) (by omega)
    (fun i _ h2 => hfail i h2) hok
  unfold callWithRetry
  rw [h]
  refine ⟨rfl, by simp, ?_⟩
  have hs := retry_wait_sum base k
  simpa using hs

/-- Witness for C5's amended theorem: the KPI retry loop with one failure
then success. -/
theorem c5_retry_success_amended_witness :
    (callWithRetry oracleOneFail 20 3).1 =
      some (RetryResult.success "kpi findings") ∧
    (callWithRetry oracleOneFail 20 3).2.sum =
      20 * (List.range 2).sum := by
  have h := c5_retry_success_amended oracleOneFail 20 3 1 "kpi findings"
    (by omega)
    (by intro i hi; interval_cases i; exact ⟨"rate limit", rfl⟩) rfl
  exact ⟨h.1, h.2.2⟩

/-- Counterexample to C5 as stated: in `KPIAgent.invoke` (base delay 20),
one failure then success waits 20 time units before the second attempt —
`base_delay * 1`, not the claimed `base_delay * 2`. -/
theorem c5_backoff_counterexample :
    kpiInvoke oracleOneFail = (some "kpi findings", [20 * 1]) ∧
    (20 * 1 : Nat) ≠ 20 * 2 := by decide

/-! ## Claim C6 -/

/-- Claim C6: a section with no entry in the capability table makes the
single `analyze_section` call fail with the unknown-section error (a
structured error naming the section, fatal to this call only); a section
with an entry resolves to its ordered, non-empty role list and the run
proceeds normally. -/
theorem c6_section_resolution (behavior llm : String → Except String String)
    (q sec : String) :
    (sectionAgentMapping.lookup sec = none →
      analyzeSection behavior llm q sec =
        SectionOutcome.errorResult
          ("No agents defined for section: " ++ sec) sec) ∧
    (∀ roles, sectionAgentMapping.lookup sec = some roles →
      agentsNeeded sec = roles ∧ roles ≠ [] ∧
      (analyzeSection behavior llm q sec).isError = false) := by
  constructor
  · intro h
    unfold analyzeSection
    simp [agentsNeeded, h]
  · intro roles h
    have hne : roles ≠ [] :=
      (sectionAgentMapping_entries _ (lookup_mem _ _ _ h)).1
    have hag : agentsNeeded sec = roles := by simp [agentsNeeded, h]
    refine ⟨hag, hne, ?_⟩
    unfold analyzeSection
    simp [hag, hne, SectionOutcome.isError]

/-- Witness for C6: an unmapped section yields the unknown-section error;
a mapped one resolves to its ordered role list. -/
theorem c6_section_resolution_witness :
    analyzeSection behaviorOkA llmBoom "q" "mystery_section" =
      SectionOutcome.errorResult
        ("No agents defined for section: " ++ "mystery_section")
        "mystery_section" ∧
    agentsNeeded "marketing_roi" = ["roi_agent", "sql_agent"] :=
  ⟨(c6_section_resolution behaviorOkA llmBoom "q" "mystery_section").1
      (by decide),
   ((c6_section_resolution behaviorOkA llmBoom "q" "marketing_roi").2
      ["roi_agent", "sql_agent"] (by decide)).1⟩

/-! ## Claim C7 -/

/-- Claim C7, amended: under the sequential scheduler the aggregated state
has exactly the section's resolved roles as keys (in order, no
duplicates), each required role holding the single recorded outcome of its
one run, and non-required roles absent.  Under the parallel scheduler each
required role's slot likewise holds the single write of its own node; but
the state carries a slot for every worker role, and a non-required role's
slot remains present holding the empty-dict placeholder rather than being
absent. -/
theorem c7_aggregated_state_amended
    (behavior : String → Except String String) (sec q role : String) :
    (runAgents behavior (agentsNeeded sec)).map Prod.fst =
      agentsNeeded sec ∧
    (agentsNeeded sec).Nodup ∧
    (role ∉ agentsNeeded sec →
      slotOf (buildCompState sec q (runAgents behavior (agentsNeeded sec)))
        role = none) ∧
    (role ∈ agentsNeeded sec →
      slotOf (buildCompState sec q (runAgents behavior (agentsNeeded sec)))
        role = some (entryOf (behavior role))) ∧
    (role ∈ slotRoles → role ∉ agentsNeeded sec →
      parSlotOf (parallelWorkersRun behavior (initialParState q sec)) role =
        some ResultSlot.emptyDict) ∧
    (∀ lbl, (role, lbl) ∈ workerNodes → role ∈ agentsNeeded sec →
      parSlotOf (parallelWorkersRun behavior (initialParState q sec)) role =
        some (nodeOutcome lbl behavior role)) := by
  refine ⟨runAgents_keys behavior (agentsNeeded sec), agentsNeeded_nodup sec,
    ?_, ?_, ?_, ?_⟩
  · intro hnot
    unfold buildCompState
    rw [slotOf_foldl_not_mem role _ _
      (by rw [runAgents_keys]; exact hnot)]
    unfold slotOf
    split <;> rfl
  · intro hmem
    have hrole := agentsNeeded_sub_slotRoles sec role hmem
    unfold buildCompState
    exact slotOf_foldl_written behavior role hrole (agentsNeeded sec) _
      (agentsNeeded_nodup sec) hmem
  · intro hrole hnot
    unfold parSlotOf
    rw [if_pos hrole]
    unfold parallelWorkersRun
    rw [workersFold_slot_skip behavior role workerNodes _ hnot]
    rfl
  · intro lbl hnode hmem
    have hroles : ∀ p ∈ workerNodes, p.1 ∈ slotRoles := by decide
    unfold parSlotOf
    rw [if_pos (hroles (role, lbl) hnode)]
    unfold parallelWorkersRun
    rw [workersFold_slot_written behavior role lbl workerNodes _ hmem hnode
      (by decide)]
    rfl

/-- Witness for C7's amended theorem, on `marketing_roi` (requires the ROI
and SQL agents): the budget slot is absent sequentially, and the ROI slot
holds its single recorded outcome under both schedulers. -/
theorem c7_aggregated_state_amended_witness :
    slotOf (buildCompState "marketing_roi" "q"
        (runAgents behaviorOkA (agentsNeeded "marketing_roi")))
      "budget_agent" = none ∧
    slotOf (buildCompState "marketing_roi" "q"
        (runAgents behaviorOkA (agentsNeeded "marketing_roi")))
      "roi_agent" = some (entryOf (behaviorOkA "roi_agent")) ∧
    parSlotOf (parallelWorkersRun behaviorOkA
        (initialParState "q" "marketing_roi")) "roi_agent" =
      some (nodeOutcome "ROI analysis" behaviorOkA "roi_agent") := by
  have h1 := c7_aggregated_state_amended behaviorOkA "marketing_roi" "q"
    "budget_agent"
  have h2 := c7_aggregated_state_amended behaviorOkA "marketing_roi" "q"
    "roi_agent"
  exact ⟨h1.2.2.1 (by decide), h2.2.2.2.1 (by decide),
    h2.2.2.2.2.2 "ROI analysis" (by decide) (by decide)⟩

/-- Counterexample to C7 as stated: in a parallel run for
`executive_summary` (which does not require SQL), the state the compiler
consumes still carries a present `sql` slot holding the empty-dict
placeholder — an entry for a role outside the resolved required-set,
stored as an empty result rather than absent. -/
theorem c7_parallel_empty_slot_counterexample :
    parSlotOf (parallelWorkersRun behaviorOkA
        (initialParState "q" "executive_summary")) "sql_agent" =
      some ResultSlot.emptyDict ∧
    "sql_agent" ∉ agentsNeeded "executive_summary" ∧
    some ResultSlot.emptyDict ≠ (none : Option ResultSlot) := by decide

/-! ## Claim C8 -/

/-- Claim C8, amended: `generate_report` is total (it never raises), it
processes every section of its input in order, pausing five time units
after every non-final section when no section body raises; a per-section
failure is recorded in `errors` as `"Error in <section>: ..."` and the
loop continues; the document content `"Error generating content: ..."` is
written only when the section analysis raises an exception, while a
failure returned as an error result leaves that section's content equal to
its (empty) `result` field. -/
theorem c8_report_batch_amended (call : String → String → SectionCall)
    (secs : List (String × String)) :
    (generateReport call secs).reportResults =
      secs.map (fun p => (p.1, sectionContent (call p.1 p.2))) ∧
    (generateReport call secs).errors =
      (secs.map (fun p => sectionErrors p.1 (call p.1 p.2))).flatten ∧
    ((∀ p ∈ secs, (call p.1 p.2).isThrow = false) →
      (generateReport call secs).pauseTotal = 5 * (secs.length - 1)) := by
  refine ⟨?_, ?_, ?_⟩
  · rw [generateReport, reportGo_results]
    rfl
  · rw [generateReport, reportGo_errors]
    rfl
  · intro h
    rw [generateReport, reportGo_pause call secs.length secs 0 _ (by simp) h]
    simp

/-- Witness for C8's amended theorem: the failing section contributes an
error entry and an empty content while the batch continues and pauses once
between the two sections. -/
theorem c8_report_batch_amended_witness :
    (generateReport callC8 secsC8).reportResults =
      [("executive_summary", "text"), ("unknown_section", "")] ∧
    (generateReport callC8 secsC8).errors =
      ["Error in unknown_section: " ++
        "No agents defined for section: unknown_section"] ∧
    (generateReport callC8 secsC8).pauseTotal = 5 := by
  have h := c8_report_batch_amended callC8 secsC8
  refine ⟨?_, ?_, ?_⟩
  · rw [h.1]
    rfl
  · rw [h.2.1]
    rfl
  · rw [h.2.2 (by decide)]
    rfl

/-- Counterexample to C8 as stated: a per-section failure returned as an
error result is recorded in `errors`, but the section's document content
is the empty `result` field, not the claimed
`"Error generating content: ..."` message (the code writes that message
only when the section analysis raises). -/
theorem c8_error_content_counterexample :
    (generateReport callErrOnly [("mystery", "q")]).reportResults =
      [("mystery", "")] ∧
    (generateReport callErrOnly [("mystery", "q")]).errors =
      ["Error in mystery: No agents defined for section: mystery"] ∧
    ("" : String) ≠
      "Error generating content: No agents defined for section: mystery" := by
  decide

/-! ## Claim C9 -/

/-- A lookup that misses the first list continues in the second. -/
theorem lookup_append_of_none {α β : Type} [BEq α]
    (l1 l2 : List (α × β)) (a : α) (h : l1.lookup a = none) :
    (l1 ++ l2).lookup a = l2.lookup a := by
  induction l1 with
  | nil => rfl
  | cons p rest ih =>
    rw [List.cons_append]
    cases hb : a == p.1 with
    | true =>
      exfalso
      rw [show p = (p.1, p.2) from rfl, List.lookup_cons, hb] at h
      simp at h
    | false =>
      rw [show p = (p.1, p.2) from rfl, List.lookup_cons, hb] at h ⊢
      simp at h ⊢
      exact ih h

/-- Claim C9: the registry constructs a worker exactly once.  From any
cache without `name`, the first `_get_agent` call constructs the instance
(one new construction-log entry) and caches it; the second call returns
the identical instance without touching the registry, so every later call
is in the same situation and returns the same instance. -/
theorem c9_registry_caches_once (reg : Registry) (name : String)
    (hknown : name ∈ knownAgentNames)
    (hnew : reg.cache.lookup name = none) :
    getAgent reg name = Except.ok
      ({ cache := reg.cache ++ [(name, reg.nextId)],
         nextId := reg.nextId + 1,
         built := reg.built ++ [name] }, reg.nextId) ∧
    getAgent { cache := reg.cache ++ [(name, reg.nextId)],
               nextId := reg.nextId + 1,
               built := reg.built ++ [name] } name =
      Except.ok
        ({ cache := reg.cache ++ [(name, reg.nextId)],
           nextId := reg.nextId + 1,
           built := reg.built ++ [name] }, reg.nextId) ∧
    buildCount { cache := reg.cache ++ [(name, reg.nextId)],
                 nextId := reg.nextId + 1,
                 built := reg.built ++ [name] } name =
      buildCount reg name + 1 := by
  refine ⟨?_, ?_, ?_⟩
  · unfold getAgent
    rw [hnew]
    simp [hknown]
  · unfold getAgent
    have hfound : (reg.cache ++ [(name, reg.nextId)]).lookup name =
        some reg.nextId := by
      rw [lookup_append_of_none _ _ _ hnew]
      simp [List.lookup]
    rw [hfound]
  · unfold buildCount
    rw [List.filter_append]
    simp

/-- Witness for C9: constructing and re-fetching the ROI agent from an
empty registry constructs it exactly once. -/
theorem c9_registry_caches_once_witness :
    getAgent emptyRegistry "roi_agent" =
      Except.ok ({ cache := [("roi_agent", 0)], nextId := 1,
                   built := ["roi_agent"] }, 0) ∧
    getAgent { cache := [("roi_agent", 0)], nextId := 1,
               built := ["roi_agent"] } "roi_agent" =
      Except.ok ({ cache := [("roi_agent", 0)], nextId := 1,
                   built := ["roi_agent"] }, 0) ∧
    buildCount { cache := [("roi_agent", 0)], nextId := 1,
                 built := ["roi_agent"] } "roi_agent" = 1 := by
  have h := c9_registry_caches_once emptyRegistry "roi_agent"
    (by decide) rfl
  exact ⟨h.1, h.2.1, h.2.2⟩

/-! ## Claim C10 -/

/-- A sequence of calls against an already-initialized singleton cell
always observes the same instance, unchanged. -/
theorem dmCallSeq_initialized (load : Option String → List (String × Nat))
    (dm : DataManagerInst) :
    ∀ ps, dmCallSeq load (some dm) ps =
      (some dm, List.replicate ps.length dm) := by
  intro ps
  induction ps with
  | nil => rfl
  | cons p rest ih =>
    simp [dmCallSeq, getDataManager, constructDataManager, ih,
      List.replicate]

/-- Claim C10: the data manager is a process-wide singleton.  Once an
instance exists, a later construction — whatever its `data_path` argument,
including a different one — returns the existing instance with its stored
path and loaded data unchanged; hence every `get_data_manager` call in a
sequence starting from an uninitialized cell returns the one instance
created by the first call. -/
theorem c10_data_manager_singleton
    (load : Option String → List (String × Nat)) (dm : DataManagerInst)
    (path : Option String) (p0 : Option String)
    (paths : List (Option String)) :
    constructDataManager load (some dm) path = dm ∧
    getDataManager load (some dm) path = dm ∧
    (dmCallSeq load none (p0 :: paths)).2 =
      List.replicate (paths.length + 1) (getDataManager load none p0) := by
  refine ⟨rfl, rfl, ?_⟩
  simp [dmCallSeq, dmCallSeq_initialized, List.replicate_succ]

end MarketLens
